import Mathlib

set_option maxRecDepth 16000

/-!
Verification development for the masal-makinesi content-safety and
response-validation pipeline (packages/prompts: guard, storyPrompt,
validation; apps/api: story retry orchestrator).

Strings are Lean `String`s; the JavaScript string operations the code uses
(`toLowerCase`, `includes`, `split(/\s+/)`, `split(/[.!?]+/)`, `trim`,
`replace`) are modelled character-wise below.  `String.length` counts code
points where JavaScript counts UTF-16 units; the two agree on every string
in scope (all are surrogate-free).  JavaScript numbers that the
pipeline compares or averages are modelled as rationals (`ℚ`).  Two
JavaScript builtins are external to the repository and are modelled as
parameters: `JSON.parse` (a `validateStoryResponse` caller supplies the
parse result as an `Option Json`) and `RegExp` matching (a `Matcher`
argument gives, for each text and guard rule, the number of matches that
`text.match(rule.pattern)` returns; `0` stands for `null`).
-/

namespace Masal

/-- JavaScript `\s` whitespace, restricted to the ASCII whitespace
characters that occur in the repository's data (space, tab, CR, LF). -/
def isWsChar (c : Char) : Bool :=
  c = ' ' || c = '\t' || c = '\r' || c = '\n'

/-- Character-wise model of JavaScript `toLowerCase` for the alphabets the
repository uses: ASCII `A`-`Z` plus the Turkish uppercase letters
`Ç Ğ Ö Ş Ü`.  (JS maps `İ` to a two-code-point sequence; no string in
scope contains `İ`, and it is left unchanged here.) -/
def jsLowerChar (c : Char) : Char :=
  if 'A' ≤ c ∧ c ≤ 'Z' then Char.ofNat (c.toNat + 32)
  else if c = 'Ç' then 'ç'
  else if c = 'Ğ' then 'ğ'
  else if c = 'Ö' then 'ö'
  else if c = 'Ş' then 'ş'
  else if c = 'Ü' then 'ü'
  else c

/-- Model of JavaScript `String.prototype.toLowerCase`. -/
def jsToLower (s : String) : String :=
  ⟨s.data.map jsLowerChar⟩

/-- `containsSub needle hay = true` iff `needle` occurs as a contiguous
sublist of `hay` (JavaScript `hay.includes(needle)` on code points). -/
def containsSub (needle : List Char) : List Char → Bool
  | [] => needle.isEmpty
  | c :: rest => needle.isPrefixOf (c :: rest) || containsSub needle rest

/-- Model of JavaScript `s.includes(sub)`. -/
def jsIncludes (s sub : String) : Bool :=
  containsSub sub.data s.data

/-- Worker for `splitRuns`: `acc` is the current fragment (reversed),
`inSep` records whether the previous character belonged to a separator
run (so the run produces a single cut). -/
def splitRunsGo (p : Char → Bool) : List Char → List Char → Bool → List (List Char)
  | [], acc, _ => [acc.reverse]
  | c :: rest, acc, inSep =>
    if p c then
      if inSep then splitRunsGo p rest acc true
      else acc.reverse :: splitRunsGo p rest [] true
    else splitRunsGo p rest (c :: acc) false

/-- Splits a character list at maximal runs of characters satisfying `p`,
as JavaScript `String.prototype.split` with a `/<class>+/` regex does:
a leading or trailing separator yields an empty fragment, and the empty
string splits to `[""]`. -/
def splitRuns (p : Char → Bool) (l : List Char) : List (List Char) :=
  splitRunsGo p l [] false

/-- Model of JavaScript `s.split(/\s+/)` (no filtering of empties). -/
def jsSplitWs (s : String) : List String :=
  (splitRuns isWsChar s.data).map (⟨·⟩)

/-- `true` iff the character is a sentence terminator of the regex class
`[.!?]`. -/
def isSentChar (c : Char) : Bool :=
  c = '.' || c = '!' || c = '?'

/-- Model of JavaScript `s.split(/[.!?]+/)` (no filtering of empties). -/
def jsSplitSent (s : String) : List String :=
  (splitRuns isSentChar s.data).map (⟨·⟩)

/-- Model of JavaScript `String.prototype.trim` (ASCII whitespace). -/
def jsTrim (s : String) : String :=
  ⟨(s.data.dropWhile isWsChar).reverse.dropWhile isWsChar |>.reverse⟩

/-- Model of JavaScript `Array.prototype.join(sep)`. -/
def joinSep (sep : String) : List String → String
  | [] => ""
  | [x] => x
  | x :: xs => x ++ sep ++ joinSep sep xs

/-- Model of JavaScript `s.replace(pat, rep)` with a string pattern:
replaces the first occurrence of `pat` only, returns `s` unchanged when
`pat` does not occur. -/
def replaceFirstL (pat rep : List Char) : List Char → List Char
  | [] => []
  | c :: rest =>
    if pat.isPrefixOf (c :: rest) then rep ++ (c :: rest).drop pat.length
    else c :: replaceFirstL pat rep rest

/-- String-level wrapper for `replaceFirstL`. -/
def jsReplaceFirst (s pat rep : String) : String :=
  ⟨replaceFirstL pat.data rep.data s.data⟩

/-! ## Content guard (packages/prompts/src/guard.ts) -/

/-- `GuardRule.severity` values. -/
inductive Severity where
  | block
  | warn
  | flag
deriving DecidableEq, Repr

/-- A guard rule.  The `pattern` field carries the source text of the
JavaScript regex; actual regex matching is a builtin external to the
repository, supplied as a `Matcher` argument. -/
structure GuardRule where
  id : String
  description : String
  pattern : String
  type : String
  severity : Severity
deriving DecidableEq, Repr

/-- Models `content.match(rule.pattern)`: the number of matches the rule's
regex finds in the text (`0` when JavaScript returns `null`). -/
def Matcher : Type := String → GuardRule → Nat

/-- `ContentGuardConfig` from types.ts. -/
structure ContentGuardConfig where
  blockedTerms : List String
  patterns : List GuardRule
  maxSensitiveReferences : Nat
  enabledGuards : List String

/-- `SafetyCheckResult` (shared types). -/
structure SafetyCheckResult where
  safe : Bool
  confidence : ℚ
  categories : List String
  blockedTerms : List String
deriving Repr

/-- The per-sub-check record `{ safe, issues, confidence }`. -/
structure GuardCheck where
  safe : Bool
  issues : List String
  confidence : ℚ
deriving Repr

/-- `DEFAULT_BLOCKED_TERMS` from guard.ts (verbatim, in source order;
`nefret` occurs twice in the source list). -/
def DEFAULT_BLOCKED_TERMS : List String :=
  [ -- Violence & Fear
    "şiddet", "kan", "ölüm", "öldür", "kavga", "savaş", "silah", "bıçak",
    "korku", "korkunç", "dehşet", "kabus", "kötü rüya", "canavar",
    -- Inappropriate Content
    "alkol", "sigara", "uyuşturucu", "kumar", "para", "zengin", "fakir",
    "yoksul", "sınıf", "ayrımcılık", "nefret", "öfke", "kızgın",
    -- Adult Themes
    "aşk", "sevgili", "öpücük", "evlilik", "boşanma", "cinsellik",
    "dokunma", "gizli", "yasak", "mahrem", "özel yer",
    -- Negative Emotions
    "nefret", "iğrenç", "tiksinti", "acı", "ağlama", "gözyaşı",
    "üzüntü", "depresyon", "kaygı", "stres", "endişe",
    -- Religious/Political
    "din", "tanrı", "allah", "dua", "namaz", "kilise", "camii",
    "politika", "hükümet", "başkan", "seçim", "parti",
    -- Scary Creatures
    "şeytan", "cin", "hayalet", "zombi", "vampir", "kurt adam",
    "cadı", "büyücü", "lanet", "kara büyü", "büyü" ]

/-- `DEFAULT_GUARD_RULES` from guard.ts. -/
def DEFAULT_GUARD_RULES : List GuardRule :=
  [ ⟨"excessive_caps", "Excessive capital letters",
     "[A-ZÇĞıİÖŞÜ]\x7b5,\x7d", "regex", .warn⟩,
    ⟨"repetitive_words", "Repetitive words (same word 3+ times)",
     "\\b(\\w+)(\\s+\\1)\x7b2,\x7d\\b", "regex", .warn⟩,
    ⟨"violence_keywords", "Violence-related keywords",
     "(vurmak|dövmek|saldırmak|zarar|yaralamak|acı vermek)", "regex", .block⟩,
    ⟨"fear_keywords", "Fear and scary content",
     "(korkutucu|dehşetli|ürkütücü|karabasan|kâbus)", "regex", .block⟩,
    ⟨"inappropriate_contact", "Inappropriate physical contact",
     "(dokunmak|ellemek|öpmek|sarılmak) (?:gizli|özel|yasak)", "regex", .block⟩,
    ⟨"negative_emotions_excessive", "Excessive negative emotions",
     "(çok üzgün|çok korkuyor|çok ağlıyor|dehşete kapılmış)", "regex", .warn⟩ ]

/-- `DEFAULT_CONFIG` from guard.ts. -/
def DEFAULT_CONFIG : ContentGuardConfig :=
  { blockedTerms := DEFAULT_BLOCKED_TERMS
    patterns := DEFAULT_GUARD_RULES
    maxSensitiveReferences := 1
    enabledGuards := ["blocked_terms", "regex_patterns", "length_check", "repetition_check"] }

/-- `checkBlockedTerms` from guard.ts: case-insensitive substring scan of
the content against the block list (the loop's pushes, in order, are the
list filter). -/
def checkBlockedTerms (content : String) (blockedTerms : List String) : GuardCheck :=
  let lowerContent := jsToLower content
  let foundTerms := blockedTerms.filter (fun term => jsIncludes lowerContent (jsToLower term))
  { safe := foundTerms.length = 0
    issues := foundTerms.map (fun term => "Blocked term found: " ++ term)
    confidence :=
      if foundTerms.length = 0 then 1
      else max (1/10) (1 - (foundTerms.length : ℚ) * (3/10)) }

/-- One iteration of `checkRegexPatterns`'s rule loop: `acc` carries the
issue strings and the blocking-match count so far, `found` is the match
count of `content.match(rule.pattern)`. -/
def regexScanStep (m : Matcher) (content : String) (acc : List String × Nat)
    (rule : GuardRule) : List String × Nat :=
  let found := m content rule
  if found > 0 then
    (acc.1 ++ [rule.description ++ ": " ++ toString found ++ " matches found"],
     if rule.severity = .block then acc.2 + 1 else acc.2)
  else acc

/-- `checkRegexPatterns` from guard.ts, with regex matching supplied by
the external `Matcher`. -/
def checkRegexPatterns (m : Matcher) (content : String) (patterns : List GuardRule) : GuardCheck :=
  let scan := patterns.foldl (regexScanStep m content) ([], 0)
  let issues := scan.1
  let blockingIssues := scan.2
  { safe := blockingIssues = 0
    issues := issues
    confidence :=
      if blockingIssues = 0 then max (1/2) (1 - (issues.length : ℚ) * (1/10))
      else 1/5 }

/-- `checkContentLength` from guard.ts: `content.split(/\s+/).length`
(empty fragments included), plus a sentence-structure check. -/
def checkContentLength (content : String) : GuardCheck :=
  let wordCount := (jsSplitWs content).length
  let issues :=
    (if wordCount < 50 then ["Content too short"] else []) ++
    (if wordCount > 1000 then ["Content too long"] else [])
  let sentences := (jsSplitSent content).filter (fun s => (jsTrim s).length > 0)
  let issues :=
    issues ++ (if sentences.length < 3 then ["Content lacks proper structure"] else [])
  { safe := issues.length = 0
    issues := issues
    confidence :=
      if issues.length = 0 then 9/10
      else max (3/10) (1 - (issues.length : ℚ) * (1/5)) }

/-- Adds `1` to the count of `w` in an insertion-ordered association
list, appending a fresh entry when absent (models a JS string-keyed
object, whose `Object.entries` order is insertion order). -/
def bumpCount (acc : List (String × Nat)) (w : String) : List (String × Nat) :=
  if acc.any (fun p => p.1 = w) then
    acc.map (fun p => if p.1 = w then (p.1, p.2 + 1) else p)
  else acc ++ [(w, 1)]

/-- `checkRepetition` from guard.ts: frequencies of words longer than 3
characters among the whitespace-split tokens of the lowercased content. -/
def checkRepetition (content : String) : GuardCheck :=
  let words := jsSplitWs (jsToLower content)
  let wordCount := (words.filter (fun w => w.length > 3)).foldl bumpCount []
  let totalWords := words.length
  let issues := (wordCount.filter
      (fun p => (p.2 : ℚ) / (totalWords : ℚ) > 1/10 ∧ p.2 > 5)).map
    (fun p => "Excessive repetition of word: " ++ p.1)
  { safe := issues.length = 0
    issues := issues
    confidence :=
      if issues.length = 0 then 4/5
      else max (2/5) (1 - (issues.length : ℚ) * (3/20)) }

/-- Appends to a deduplicating accumulator (models insertion into a JS
`Set` read back with insertion order). -/
def addCategory (acc : List String) (c : String) : List String :=
  if acc.contains c then acc else acc ++ [c]

/-- `extractCategories` from guard.ts: keyword-matches each issue string. -/
def extractCategories (issues : List String) : List String :=
  issues.foldl
    (fun acc issue =>
      let acc := if jsIncludes issue "Blocked term" then addCategory acc "inappropriate_content" else acc
      let acc := if jsIncludes issue "violence" then addCategory acc "violence" else acc
      let acc := if jsIncludes issue "fear" || jsIncludes issue "scary" then addCategory acc "fear" else acc
      let acc := if jsIncludes issue "repetition" then addCategory acc "quality_issues" else acc
      let acc := if jsIncludes issue "length" || jsIncludes issue "structure" then addCategory acc "format_issues" else acc
      acc)
    []

/-- `extractBlockedTerms` from guard.ts. -/
def extractBlockedTerms (content : String) (blockedTerms : List String) : List String :=
  let lowerContent := jsToLower content
  blockedTerms.filter (fun term => jsIncludes lowerContent (jsToLower term))

/-- `checkContentSafety` from guard.ts: runs the enabled sub-checks and
aggregates.  (With an empty `enabledGuards` list the JS average would be
`NaN`; in `ℚ` the division yields `0`.) -/
def checkContentSafety (m : Matcher) (content : String) (config : ContentGuardConfig) :
    SafetyCheckResult :=
  let results : List GuardCheck :=
    (if config.enabledGuards.contains "blocked_terms" then
      [checkBlockedTerms content config.blockedTerms] else []) ++
    (if config.enabledGuards.contains "regex_patterns" then
      [checkRegexPatterns m content config.patterns] else []) ++
    (if config.enabledGuards.contains "length_check" then
      [checkContentLength content] else []) ++
    (if config.enabledGuards.contains "repetition_check" then
      [checkRepetition content] else [])
  let allSafe := results.all (fun r => r.safe)
  let averageConfidence := (results.map (fun r => r.confidence)).sum / (results.length : ℚ)
  let allIssues := (results.map (fun r => r.issues)).flatten
  { safe := allSafe
    confidence := averageConfidence
    categories := extractCategories allIssues
    blockedTerms := extractBlockedTerms content config.blockedTerms }

/-- `preCheckUserInput` from guard.ts: the blocked-term and block-severity
regex sub-checks only. -/
def preCheckUserInput (m : Matcher) (input : String) : SafetyCheckResult :=
  let simpleConfig : ContentGuardConfig :=
    { blockedTerms := DEFAULT_BLOCKED_TERMS
      patterns := DEFAULT_GUARD_RULES.filter (fun rule => rule.severity = .block)
      maxSensitiveReferences := 0
      enabledGuards := ["blocked_terms", "regex_patterns"] }
  checkContentSafety m input simpleConfig

/-- `quickSafetyCheck` from guard.ts. -/
def quickSafetyCheck (m : Matcher) (content : String) : Bool :=
  (checkContentSafety m content DEFAULT_CONFIG).safe

/-! ## Shared enums and requests (packages/shared/src/types) -/

/-- `StoryTheme` (8 fixed values). -/
inductive StoryTheme where
  | adventure | friendship | learning | fantasy | animals | family | nature | music
deriving DecidableEq, Repr

/-- The string value of a `StoryTheme` member. -/
def StoryTheme.val : StoryTheme → String
  | .adventure => "adventure"
  | .friendship => "friendship"
  | .learning => "learning"
  | .fantasy => "fantasy"
  | .animals => "animals"
  | .family => "family"
  | .nature => "nature"
  | .music => "music"

/-- `Object.values(StoryTheme)`. -/
def storyThemeValues : List String :=
  ["adventure", "friendship", "learning", "fantasy", "animals", "family", "nature", "music"]

/-- `StoryLength` (3 fixed values). -/
inductive StoryLength where
  | short | medium | long
deriving DecidableEq, Repr

/-- The string value of a `StoryLength` member. -/
def StoryLength.val : StoryLength → String
  | .short => "short"
  | .medium => "medium"
  | .long => "long"

/-- `Object.values(StoryLength)`. -/
def storyLengthValues : List String :=
  ["short", "medium", "long"]

/-- A validated `StoryRequest` (childName, age, theme, length, optional
elements; the token field is opaque to the pipeline and omitted).  `age`
is a JS number holding an integer in every validated request; modelled
as `Nat` here, which `toString` renders the way JS does. -/
structure StoryRequest where
  childName : String
  age : Nat
  theme : StoryTheme
  length : StoryLength
  elements : Option (List String)
deriving Repr

/-! ## Prompt builder (packages/prompts/src/storyPrompt.ts) -/

/-- `LengthSpec` from types.ts. -/
structure LengthSpec where
  wordCount : Nat
  range : Nat × Nat
  complexity : String
deriving Repr

/-- `PromptTemplate` from types.ts; the two enum-keyed records are total
functions, the string-keyed `ageModifiers` record is an association
list. -/
structure PromptTemplate where
  version : String
  basePrompt : String
  ageModifiers : List (String × String)
  themePrompts : StoryTheme → String
  lengthSpecs : StoryLength → LengthSpec
  safetyInstructions : String

/-- String-keyed record access (`record[key]`, `undefined` when absent). -/
def recordGet (r : List (String × String)) (k : String) : Option String :=
  (r.find? (fun p => p.1 == k)).map (fun p => p.2)

/-- `DEFAULT_TEMPLATE` from storyPrompt.ts. -/
def DEFAULT_TEMPLATE : PromptTemplate :=
  { version := "1.0.0"
    basePrompt := "Sen bir çocuk masalı yazarısın. {childName} adında {age} yaşında bir çocuk için kişiselleştirilmiş bir masal yaz.\n\nGereksinimler:\n- Masal Türkçe olmalı\n- Çocuğun yaşına uygun olmalı\n- {length} uzunlukta olmalı\n- {theme} teması işlenmeli\n- Pozitif ve eğitici mesajlar içermeli\n- Şiddet, korku veya uygunsuz içerik olmamalı"
    ageModifiers :=
      [("3-5", "Çok basit kelimeler kullan, tekrarlar yap, renkler ve sesler ekle."),
       ("6-8", "Basit kelimeler kullan, kısa cümleler yaz, hayal gücünü geliştir."),
       ("9-12", "Orta seviye kelimeler kullan, daha karmaşık hikaye yapısı kur."),
       ("13+", "Zengin kelime dağarcığı kullan, derin karakterler oluştur.")]
    themePrompts := fun t => match t with
      | .adventure => "Keşif ve macera dolu bir hikaye anlat. Cesaret ve azmi vurgula."
      | .friendship => "Dostluk, paylaşım ve yardımlaşma konularını işle."
      | .learning => "Öğrenme ve merak konularını eğlenceli şekilde anlat."
      | .fantasy => "Büyülü kreatürler ve fantastik dünyalar kur."
      | .animals => "Hayvanlar ve doğa ile ilgili hikaye anlat."
      | .family => "Aile değerleri ve sevgiyi vurgula."
      | .nature => "Doğa sevgisi ve çevre bilincini işle."
      | .music => "Müzik ve ritim konularını eğlenceli şekilde kur."
    lengthSpecs := fun l => match l with
      | .short => ⟨150, (100, 200), "simple"⟩
      | .medium => ⟨300, (200, 400), "moderate"⟩
      | .long => ⟨500, (400, 600), "advanced"⟩
    safetyInstructions := "GÜVENLIK KURALLARI:\n- Şiddet, korku veya travma içeren içerik yazma\n- Uygunsuz kelimeler veya kavramlar kullanma\n- Aile için güvenli ve pozitif mesajlar ver\n- Çocuğun yaş grubuna uygun içerik üret" }

/-- `getAgeGroup` from storyPrompt.ts. -/
def getAgeGroup (age : Nat) : String :=
  if age ≤ 5 then "3-5"
  else if age ≤ 8 then "6-8"
  else if age ≤ 12 then "9-12"
  else "13+"

/-- `getLengthDescription` from storyPrompt.ts. -/
def getLengthDescription (length : StoryLength) (spec : LengthSpec) : String :=
  (match length with
    | .short => "kısa"
    | .medium => "orta uzunlukta"
    | .long => "uzun") ++ " (yaklaşık " ++ toString spec.wordCount ++ " kelime)"

/-- `buildStoryPrompt` from storyPrompt.ts. -/
def buildStoryPrompt (request : StoryRequest) (template : PromptTemplate := DEFAULT_TEMPLATE) :
    String :=
  let ageGroup := getAgeGroup request.age
  let lengthSpec := template.lengthSpecs request.length
  let themePrompt := template.themePrompts request.theme
  let ageModifier := recordGet template.ageModifiers ageGroup
  let prompt :=
    jsReplaceFirst
      (jsReplaceFirst
        (jsReplaceFirst
          (jsReplaceFirst template.basePrompt "{childName}" request.childName)
          "{age}" (toString request.age))
        "{length}" (getLengthDescription request.length lengthSpec))
      "{theme}" themePrompt
  let prompt :=
    match ageModifier with
    | some m => prompt ++ "\n\nYaş grubu özel talimatları: " ++ m
    | none => prompt
  let prompt :=
    match request.elements with
    | some es =>
      if es.length > 0 then prompt ++ "\n\nHikayede bu öğeleri de dahil et: " ++ joinSep ", " es
      else prompt
    | none => prompt
  let prompt := prompt ++ "\n\nHikaye uzunluğu: " ++ toString lengthSpec.wordCount ++
    " kelime civarında (" ++ toString lengthSpec.range.1 ++ "-" ++ toString lengthSpec.range.2 ++
    " kelime arası)."
  let prompt := prompt ++ "\n\n" ++ template.safetyInstructions
  let prompt := prompt ++
    "\n\nCevabını şu JSON formatında ver:\n\x7b\n    \"title\": \"Hikaye başlığı\",\n    \"content\": \"Hikaye içeriği\",\n    \"wordCount\": kelime_sayısı,\n    \"theme\": \"" ++
    request.theme.val ++ "\",\n    \"language\": \"tr\"\n\x7d"
  prompt

/-- `buildRetryPrompt` from storyPrompt.ts: the default prompt plus a
previous-error block. -/
def buildRetryPrompt (originalRequest : StoryRequest) (previousError : String) : String :=
  buildStoryPrompt originalRequest ++ "\n\nÖNCEKI HATA: " ++ previousError ++
    "\n\nBu hatayı düzelterek, geçerli JSON formatında cevap ver. Daha dikkatli ol ve format kurallarına uy."

/-! ## Response validation (packages/prompts/src/validation.ts) -/

/-- JSON values (the possible results of `JSON.parse`). -/
inductive Json where
  | str (s : String)
  | num (q : ℚ)
  | bool (b : Bool)
  | null
  | arr (xs : List Json)
  | obj (fields : List (String × Json))

/-- Object property access (`undefined` when absent or not an object). -/
def Json.get : Json → String → Option Json
  | .obj fields, k => (fields.find? (fun p => p.1 == k)).map (fun p => p.2)
  | _, _ => none

/-- `ValidationError` (shared types): field, message, machine code. -/
structure ValidationError where
  field : String
  message : String
  code : String
deriving DecidableEq, Repr

/-- `ValidationConfig` from types.ts (the fields the pipeline reads). -/
structure ValidationConfig where
  minWordCount : Nat
  maxWordCount : Nat
  requiredFields : List String
  maxRepetition : ℚ
deriving Repr

/-- `DEFAULT_VALIDATION_CONFIG` from validation.ts. -/
def DEFAULT_VALIDATION_CONFIG : ValidationConfig :=
  { minWordCount := 50
    maxWordCount := 800
    requiredFields := ["title", "content", "wordCount", "theme", "language"]
    maxRepetition := 3/10 }

/-- The schema-conformant payload (`ValidatedStoryResponse`). -/
structure ValidatedStoryResponse where
  title : String
  content : String
  wordCount : ℚ
  theme : StoryTheme
  language : String
deriving DecidableEq, Repr

/-- The check issues of the `title` chain
`z.string().min(5).max(100).refine(non-blank)` on a string value.  Zod
runs every check and accumulates one issue per failed check, in chain
order; the `.refine` effect also runs on a dirty (check-failed) string
value and can add its issue on top. -/
def titleIssues (s : String) : List ValidationError :=
  (if s.length < 5 then
    [⟨"title", "Başlık çok kısa", "SCHEMA_VALIDATION_ERROR"⟩] else []) ++
  (if s.length > 100 then
    [⟨"title", "Başlık çok uzun", "SCHEMA_VALIDATION_ERROR"⟩] else []) ++
  (if (jsTrim s).length = 0 then
    [⟨"title", "Başlık boş olamaz", "SCHEMA_VALIDATION_ERROR"⟩] else [])

/-- The `title` branch of `StoryResponseSchema`: on a string, all failed
checks accumulate (`titleIssues`); a wrong type or a missing key aborts
with its single issue and the refinement does not run. -/
def parseTitle (v : Option Json) : Except (List ValidationError) String :=
  match v with
  | some (.str s) => if (titleIssues s).isEmpty then .ok s else .error (titleIssues s)
  | some _ => .error [⟨"title", "Expected string", "SCHEMA_VALIDATION_ERROR"⟩]
  | none => .error [⟨"title", "Required", "SCHEMA_VALIDATION_ERROR"⟩]

/-- The check issues of the `content` chain
`z.string().min(50).max(3000).refine(non-blank)` on a string value
(accumulating, as for `titleIssues`). -/
def contentIssues (s : String) : List ValidationError :=
  (if s.length < 50 then
    [⟨"content", "İçerik çok kısa (minimum 50 karakter)", "SCHEMA_VALIDATION_ERROR"⟩] else []) ++
  (if s.length > 3000 then
    [⟨"content", "İçerik çok uzun (maksimum 3000 karakter)", "SCHEMA_VALIDATION_ERROR"⟩] else []) ++
  (if (jsTrim s).length = 0 then
    [⟨"content", "İçerik boş olamaz", "SCHEMA_VALIDATION_ERROR"⟩] else [])

/-- The `content` branch of `StoryResponseSchema` (accumulating). -/
def parseContent (v : Option Json) : Except (List ValidationError) String :=
  match v with
  | some (.str s) => if (contentIssues s).isEmpty then .ok s else .error (contentIssues s)
  | some _ => .error [⟨"content", "Expected string", "SCHEMA_VALIDATION_ERROR"⟩]
  | none => .error [⟨"content", "Required", "SCHEMA_VALIDATION_ERROR"⟩]

/-- The check issues of the `wordCount` chain
`z.number().min(50).max(800).int()` on a number value: Zod runs all
three checks and accumulates one issue per failed check, in chain order
(so `30.5` yields both the `min` and the `int` issue). -/
def wordCountIssues (q : ℚ) : List ValidationError :=
  (if q < 50 then
    [⟨"wordCount", "Kelime sayısı çok az", "SCHEMA_VALIDATION_ERROR"⟩] else []) ++
  (if q > 800 then
    [⟨"wordCount", "Kelime sayısı çok fazla", "SCHEMA_VALIDATION_ERROR"⟩] else []) ++
  (if q.den ≠ 1 then
    [⟨"wordCount", "Kelime sayısı tam sayı olmalı", "SCHEMA_VALIDATION_ERROR"⟩] else [])

/-- The `wordCount` branch of `StoryResponseSchema` (accumulating). -/
def parseWordCount (v : Option Json) : Except (List ValidationError) ℚ :=
  match v with
  | some (.num q) => if (wordCountIssues q).isEmpty then .ok q else .error (wordCountIssues q)
  | some _ => .error [⟨"wordCount", "Expected number", "SCHEMA_VALIDATION_ERROR"⟩]
  | none => .error [⟨"wordCount", "Required", "SCHEMA_VALIDATION_ERROR"⟩]

/-- The `theme` branch of `StoryResponseSchema` (`z.nativeEnum(StoryTheme)`
with the custom error map): a single issue for any non-member value,
missing key included. -/
def parseTheme (v : Option Json) : Except (List ValidationError) StoryTheme :=
  match v with
  | some (.str "adventure") => .ok .adventure
  | some (.str "friendship") => .ok .friendship
  | some (.str "learning") => .ok .learning
  | some (.str "fantasy") => .ok .fantasy
  | some (.str "animals") => .ok .animals
  | some (.str "family") => .ok .family
  | some (.str "nature") => .ok .nature
  | some (.str "music") => .ok .music
  | _ => .error [⟨"theme", "Geçersiz tema", "SCHEMA_VALIDATION_ERROR"⟩]

/-- The `language` branch of `StoryResponseSchema`
(`z.enum(['tr', 'en'])` with the custom error map): a single issue for
any non-member value, missing key included. -/
def parseLanguage (v : Option Json) : Except (List ValidationError) String :=
  match v with
  | some (.str "tr") => .ok "tr"
  | some (.str "en") => .ok "en"
  | _ => .error [⟨"language", "Dil Türkçe (tr) veya İngilizce (en) olmalı", "SCHEMA_VALIDATION_ERROR"⟩]

/-- Decidable equality for `Except` results (needed to evaluate the
schema check on concrete inputs). -/
instance exceptDecEq {e a : Type} [DecidableEq e] [DecidableEq a] :
    DecidableEq (Except e a) := fun x y =>
  match x, y with
  | .ok v, .ok w => if h : v = w then isTrue (by rw [h]) else isFalse (by simp [h])
  | .error v, .error w => if h : v = w then isTrue (by rw [h]) else isFalse (by simp [h])
  | .ok _, .error _ => isFalse (by simp)
  | .error _, .ok _ => isFalse (by simp)

/-- The issue list (possibly empty) of one field branch. -/
def fieldIssues {α : Type} (r : Except (List ValidationError) α) : List ValidationError :=
  match r with
  | .ok _ => []
  | .error es => es

/-- `StoryResponseSchema.safeParse` (validation.ts lines 12-35), already
mapped to `ValidationError`s with code `SCHEMA_VALIDATION_ERROR` the way
`validateStoryResponse` maps Zod issues: one error per failed schema
check, grouped by field in shape order (a field can contribute several,
since Zod accumulates check failures); a non-object payload yields the
single `unknown`-field error (`err.path.join('.') || 'unknown'`). -/
def schemaCheck (j : Json) : Except (List ValidationError) ValidatedStoryResponse :=
  match j with
  | .obj fields =>
    match parseTitle ((Json.obj fields).get "title"),
        parseContent ((Json.obj fields).get "content"),
        parseWordCount ((Json.obj fields).get "wordCount"),
        parseTheme ((Json.obj fields).get "theme"),
        parseLanguage ((Json.obj fields).get "language") with
    | .ok t, .ok c, .ok w, .ok th, .ok l => .ok ⟨t, c, w, th, l⟩
    | t, c, w, th, l =>
      .error (fieldIssues t ++ fieldIssues c ++ fieldIssues w ++ fieldIssues th ++ fieldIssues l)
  | _ => .error [⟨"unknown", "Expected object", "SCHEMA_VALIDATION_ERROR"⟩]

/-- `countWords` from validation.ts:
`content.trim().split(/\s+/).filter(word => word.length > 0).length`. -/
def countWords (content : String) : Nat :=
  ((jsSplitWs (jsTrim content)).filter (fun w => w.length > 0)).length

/-- `getExpectedWordCountRange` from validation.ts. -/
def getExpectedWordCountRange (length : StoryLength) : Nat × Nat :=
  match length with
  | .short => (80, 220)
  | .medium => (180, 420)
  | .long => (350, 650)

/-- `calculateRepetitionScore` from validation.ts. -/
def calculateRepetitionScore (content : String) : ℚ :=
  let words := jsSplitWs (jsToLower content)
  let wordCounts := (words.filter (fun w => w.length > 3)).foldl bumpCount []
  let totalMeaningfulWords := (wordCounts.map (fun p => p.2)).sum
  let repeatedWords := (wordCounts.filter (fun p => p.2 > 2)).length
  (repeatedWords : ℚ) / (max 1 totalMeaningfulWords : Nat)

/-- The characters of the dialogue-marker regex class. -/
def dialogueChars : List Char :=
  ['"', Char.ofNat 39, '„', '“', '”']

/-- `validateContentQuality` from validation.ts. -/
def validateContentQuality (content : String) (config : ValidationConfig) :
    List ValidationError :=
  let sentences := (jsSplitSent content).filter (fun s => (jsTrim s).length > 0)
  let e1 :=
    if sentences.length < 3 then
      [⟨"content", "İçerik yeterli cümle yapısına sahip değil", "INSUFFICIENT_STRUCTURE"⟩]
    else []
  let repetitionScore := calculateRepetitionScore content
  let e2 :=
    if repetitionScore > config.maxRepetition then
      [⟨"content", "İçerikte aşırı tekrar var", "EXCESSIVE_REPETITION"⟩]
    else []
  let hasDialogue :=
    content.data.any (fun c => dialogueChars.contains c) ||
      ["dedi", "söyledi", "sordu", "yanıtladı"].any
        (fun w => jsIncludes (jsToLower content) w)
  let hasNarrative := (jsSplitSent content).length > 5
  let e3 :=
    if !hasDialogue && !hasNarrative then
      [⟨"content", "İçerik hikaye formatında değil", "NOT_STORY_FORMAT"⟩]
    else []
  e1 ++ e2 ++ e3

/-- The character class of the Turkish-character regex
`/[çğıİöşüÇĞÖŞÜ]/`. -/
def turkishChars : List Char :=
  ['ç', 'ğ', 'ı', 'İ', 'ö', 'ş', 'ü', 'Ç', 'Ğ', 'Ö', 'Ş', 'Ü']

/-- `validateTurkishContent` from validation.ts. -/
def validateTurkishContent (content : String) : List ValidationError :=
  let e1 :=
    if !content.data.any (fun c => turkishChars.contains c) then
      [⟨"content", "İçerik Türkçe karakterler içermiyor", "NO_TURKISH_CHARACTERS"⟩]
    else []
  let commonTurkishWords :=
    ["bir", "ve", "bu", "o", "da", "de", "ile", "için", "var", "olan"]
  let lowerContent := jsToLower content
  let foundTurkishWords := commonTurkishWords.filter (fun w => jsIncludes lowerContent w)
  let e2 :=
    if foundTurkishWords.length < 3 then
      [⟨"content", "İçerik Türkçe dilinde görünmüyor", "NOT_TURKISH_LANGUAGE"⟩]
    else []
  e1 ++ e2

/-- The result record of `validateStoryResponse`. -/
structure ValidationResult where
  valid : Bool
  data : Option ValidatedStoryResponse
  errors : List ValidationError
deriving Repr

/-- Steps 3-6 of `validateStoryResponse` (content safety, word count,
quality, Turkish language), run on schema-validated data; their errors
accumulate. -/
def postSchemaChecks (m : Matcher) (data : ValidatedStoryResponse)
    (expectedLength : StoryLength) (config : ValidationConfig) : ValidationResult :=
  let safetyResult := checkContentSafety m data.content DEFAULT_CONFIG
  let e3 :=
    if !safetyResult.safe then
      [⟨"content",
        "İçerik güvenlik kontrolünden geçemedi: " ++ joinSep ", " safetyResult.categories,
        "CONTENT_SAFETY_FAILED"⟩]
    else []
  let actualWordCount := countWords data.content
  let expectedRange := getExpectedWordCountRange expectedLength
  let e4 :=
    if actualWordCount < expectedRange.1 ∨ actualWordCount > expectedRange.2 then
      [⟨"wordCount",
        "Kelime sayısı beklenen aralıkta değil. Beklenen: " ++ toString expectedRange.1 ++
          "-" ++ toString expectedRange.2 ++ ", Gerçek: " ++ toString actualWordCount,
        "WORD_COUNT_MISMATCH"⟩]
    else []
  let e5 := validateContentQuality data.content config
  let e6 := validateTurkishContent data.content
  let errors := e3 ++ e4 ++ e5 ++ e6
  { valid := errors.isEmpty
    data := if errors.isEmpty then some data else none
    errors := errors }

/-- `validateStoryResponse` from validation.ts.  `JSON.parse` is a
JavaScript builtin external to the repository; the caller passes its
result (`none` for a parse failure, `some j` for a successful parse of
the raw text into the JSON value `j`).  Steps: parse short-circuit,
schema short-circuit, then the accumulating checks of
`postSchemaChecks`. -/
def validateStoryResponse (m : Matcher) (parsed : Option Json) (expectedLength : StoryLength)
    (config : ValidationConfig) : ValidationResult :=
  match parsed with
  | none =>
    { valid := false
      data := none
      errors := [⟨"response", "Geçersiz JSON formatı", "INVALID_JSON"⟩] }
  | some j =>
    match schemaCheck j with
    | .error schemaErrors => { valid := false, data := none, errors := schemaErrors }
    | .ok data => postSchemaChecks m data expectedLength config

/-- `isRecoverableError` from validation.ts. -/
def isRecoverableError (errors : List ValidationError) : Bool :=
  let recoverableCodes :=
    ["INVALID_JSON", "WORD_COUNT_MISMATCH", "INSUFFICIENT_STRUCTURE", "NOT_STORY_FORMAT"]
  errors.any (fun error => recoverableCodes.contains error.code)

/-! ## Request pre-validation (validation.ts, `validateUserRequest`) -/

/-- A JavaScript value as it can arrive in an untyped (`any`) request
field; `undef` stands for a missing property. -/
inductive JsVal where
  | str (s : String)
  | num (q : ℚ)
  | bool (b : Bool)
  | null
  | undef
deriving DecidableEq, Repr

/-- JavaScript truthiness test (`!v` is the negation). -/
def jsTruthy : JsVal → Bool
  | .str s => s ≠ ""
  | .num q => q ≠ 0
  | .bool b => b
  | .null => false
  | .undef => false

/-- An untyped story request as `validateUserRequest` receives it. -/
structure AnyRequest where
  childName : JsVal
  age : JsVal
  theme : JsVal
  length : JsVal
deriving Repr

/-- `Array.includes` applied to a JS value against a list of enum string
values (`Object.values(...).includes(x)`). -/
def valIncluded (vals : List String) : JsVal → Bool
  | .str s => vals.contains s
  | _ => false

/-- The result record of `validateUserRequest`. -/
structure RequestValidation where
  valid : Bool
  errors : List ValidationError
deriving Repr

/-- `validateUserRequest` from validation.ts. -/
def validateUserRequest (request : AnyRequest) : RequestValidation :=
  let e1 :=
    if !jsTruthy request.childName ||
        (match request.childName with
          | .str s => (jsTrim s).length = 0
          | _ => true) then
      [⟨"childName", "Çocuk adı gerekli", "MISSING_CHILD_NAME"⟩]
    else []
  let e2 :=
    if !jsTruthy request.age ||
        (match request.age with
          | .num q => q < 3 ∨ q > 18
          | _ => true) then
      [⟨"age", "Yaş 3-18 arasında olmalı", "INVALID_AGE"⟩]
    else []
  let e3 :=
    if !valIncluded storyThemeValues request.theme then
      [⟨"theme", "Geçersiz hikaye teması", "INVALID_THEME"⟩]
    else []
  let e4 :=
    if !valIncluded storyLengthValues request.length then
      [⟨"length", "Geçersiz hikaye uzunluğu", "INVALID_LENGTH"⟩]
    else []
  let errors := e1 ++ e2 ++ e3 ++ e4
  { valid := errors.isEmpty, errors := errors }

/-! ## Retry orchestrator (apps/api, `generateStoryWithRetry`) -/

/-- A finalized story (`Story` from shared types; `id` and `createdAt`
are assigned by the caller and start empty). -/
structure Story where
  id : String
  title : String
  content : String
  childName : String
  theme : StoryTheme
  length : StoryLength
  wordCount : ℚ
  createdAt : String
deriving Repr

/-- `StoryMetadata` from shared types (the fields the orchestrator sets). -/
structure StoryMetadata where
  generationTime : Nat
  model : String
  safetyScore : ℚ
  language : String
  promptVersion : String
deriving Repr

/-- The response of the injected generation collaborator
(`gemini.generateStory`).  Its raw text reaches the pipeline only through
`JSON.parse`, which is external; `content` therefore carries the parse
result directly (`none` = raw text that is not valid JSON). -/
structure GenResponse where
  content : Option Json
  safetyRatings : List String

/-- A generation collaborator: given the attempt index and the prompt,
either returns a response or throws (`Except.error` carries the thrown
error's message). -/
def Generator : Type := Nat → String → Except String GenResponse

/-- `calculateSafetyScore` from the story endpoint. -/
def calculateSafetyScore (safetyRatings : List String) : ℚ :=
  if safetyRatings.length = 0 then 4/5
  else
    ((safetyRatings.filter (fun p => p = "NEGLIGIBLE" || p = "LOW")).length : ℚ) /
      (safetyRatings.length : ℚ)

/-- The orchestrator's result record. -/
structure RetryResult where
  success : Bool
  story : Option Story
  metadata : Option StoryMetadata
  error : Option String
deriving Repr

/-- The success branch of the retry loop: the validated data promoted to
a `Story` plus generation metadata. -/
def mkSuccess (request : StoryRequest) (data : ValidatedStoryResponse)
    (resp : GenResponse) : RetryResult :=
  { success := true
    story := some
      { id := ""
        title := data.title
        content := data.content
        childName := request.childName
        theme := request.theme
        length := request.length
        wordCount := data.wordCount
        createdAt := "" }
    metadata := some
      { generationTime := 0
        model := "gemini-pro"
        safetyScore := calculateSafetyScore resp.safetyRatings
        language := data.language
        promptVersion := "1.0.0" }
    error := none }

/-- The failure return of `generateStoryWithRetry`. -/
def mkFailure (lastError : String) : RetryResult :=
  { success := false
    story := none
    metadata := none
    error := some ("Story generation failed after 2 attempts: " ++ lastError) }

/-- The body of `generateStoryWithRetry`'s `for` loop
(`for (let attempt = 0; attempt < 2; attempt++)`), instrumented: besides
the result it returns the list of `(attempt, prompt)` pairs actually
passed to the generation collaborator.  `remaining` is the number of loop
iterations left (`2 - attempt`). -/
def retryGo (m : Matcher) (gen : Generator) (request : StoryRequest) :
    Nat → Nat → String → RetryResult × List (Nat × String)
  | 0, _, lastError => (mkFailure lastError, [])
  | remaining + 1, attempt, lastError =>
    let prompt :=
      if attempt = 0 then buildStoryPrompt request
      else buildRetryPrompt request lastError
    match gen attempt prompt with
    | .error msg =>
      let next := retryGo m gen request remaining (attempt + 1) msg
      (next.1, (attempt, prompt) :: next.2)
    | .ok resp =>
      let validation :=
        validateStoryResponse m resp.content request.length DEFAULT_VALIDATION_CONFIG
      match validation.valid, validation.data with
      | true, some data => (mkSuccess request data resp, [(attempt, prompt)])
      | _, _ =>
        let lastError := joinSep ", " (validation.errors.map (fun e => e.message))
        if isRecoverableError validation.errors then
          let next := retryGo m gen request remaining (attempt + 1) lastError
          (next.1, (attempt, prompt) :: next.2)
        else (mkFailure lastError, [(attempt, prompt)])

/-- `generateStoryWithRetry` from the story endpoint, instrumented with
the trace of generation calls. -/
def generateStoryWithRetryT (m : Matcher) (gen : Generator) (request : StoryRequest) :
    RetryResult × List (Nat × String) :=
  retryGo m gen request 2 0 ""

/-- `generateStoryWithRetry` from the story endpoint (result only). -/
def generateStoryWithRetry (m : Matcher) (gen : Generator) (request : StoryRequest) :
    RetryResult :=
  (generateStoryWithRetryT m gen request).1

/-! ## Helper lemmas -/

/-- With the default configuration all four sub-checks are enabled and the
aggregate `safe` flag is their conjunction. -/
theorem checkContentSafety_default_safe (m : Matcher) (content : String) :
    (checkContentSafety m content DEFAULT_CONFIG).safe =
      ((checkBlockedTerms content DEFAULT_BLOCKED_TERMS).safe &&
       (checkRegexPatterns m content DEFAULT_GUARD_RULES).safe &&
       (checkContentLength content).safe &&
       (checkRepetition content).safe) := by
  have h : (checkContentSafety m content DEFAULT_CONFIG).safe =
      ((checkBlockedTerms content DEFAULT_BLOCKED_TERMS).safe &&
       ((checkRegexPatterns m content DEFAULT_GUARD_RULES).safe &&
        ((checkContentLength content).safe &&
         ((checkRepetition content).safe && true)))) := rfl
  rw [h]
  simp [Bool.and_assoc]

/-- The aggregate result reports exactly the extracted blocked terms. -/
theorem checkContentSafety_default_blockedTerms (m : Matcher) (content : String) :
    (checkContentSafety m content DEFAULT_CONFIG).blockedTerms =
      extractBlockedTerms content DEFAULT_BLOCKED_TERMS := rfl

/-- The blocked-term sub-check's `safe` flag tests emptiness of the found
list. -/
theorem checkBlockedTerms_safe_eq (content : String) (blockedTerms : List String) :
    (checkBlockedTerms content blockedTerms).safe =
      decide ((blockedTerms.filter
        (fun term => jsIncludes (jsToLower content) (jsToLower term))).length = 0) := rfl

/-! ## C1: blocked terms force an unsafe verdict -/

/-- C1: any text containing (case-insensitively) a term of the default
blocked-term list gets `safe = false` from `checkContentSafety` under the
default configuration, and that term is reported in `blockedTerms`. -/
theorem c1_blocked_term_unsafe (m : Matcher) (text term : String)
    (hmem : term ∈ DEFAULT_BLOCKED_TERMS)
    (hsub : jsIncludes (jsToLower text) (jsToLower term) = true) :
    (checkContentSafety m text DEFAULT_CONFIG).safe = false ∧
      term ∈ (checkContentSafety m text DEFAULT_CONFIG).blockedTerms := by
  have hter : term ∈ DEFAULT_BLOCKED_TERMS.filter
      (fun t => jsIncludes (jsToLower text) (jsToLower t)) :=
    List.mem_filter.mpr ⟨hmem, hsub⟩
  constructor
  · rw [checkContentSafety_default_safe]
    have hbt : (checkBlockedTerms text DEFAULT_BLOCKED_TERMS).safe = false := by
      rw [checkBlockedTerms_safe_eq]
      refine decide_eq_false ?_
      simp only [List.length_eq_zero]
      exact List.ne_nil_of_mem hter
    rw [hbt]
    simp
  · rw [checkContentSafety_default_blockedTerms]
    exact hter

/-- C1 witness: the text `Bu hikayede bir canavar var` contains the
blocked term `canavar`. -/
theorem c1_witness :
    (checkContentSafety (fun _ _ => 0) "Bu hikayede bir canavar var" DEFAULT_CONFIG).safe
        = false ∧
      "canavar" ∈ (checkContentSafety (fun _ _ => 0) "Bu hikayede bir canavar var"
        DEFAULT_CONFIG).blockedTerms :=
  c1_blocked_term_unsafe (fun _ _ => 0) "Bu hikayede bir canavar var" "canavar"
    (by decide) (by decide)

/-! ## C3: the recoverable-error predicate -/

/-- C3: `isRecoverableError` is true exactly when some error's code lies
in the four-element recoverable set, and a list whose codes are all among
the schema, safety, repetition and language codes is never recoverable. -/
theorem c3_isRecoverableError_iff (errors : List ValidationError) :
    (isRecoverableError errors = true ↔
      ∃ e ∈ errors, e.code ∈ (["INVALID_JSON", "WORD_COUNT_MISMATCH",
        "INSUFFICIENT_STRUCTURE", "NOT_STORY_FORMAT"] : List String)) ∧
    ((∀ e ∈ errors, e.code ∈ (["SCHEMA_VALIDATION_ERROR", "CONTENT_SAFETY_FAILED",
        "EXCESSIVE_REPETITION", "NO_TURKISH_CHARACTERS",
        "NOT_TURKISH_LANGUAGE"] : List String)) →
      isRecoverableError errors = false) := by
  have hiff : isRecoverableError errors = true ↔
      ∃ e ∈ errors, e.code ∈ (["INVALID_JSON", "WORD_COUNT_MISMATCH",
        "INSUFFICIENT_STRUCTURE", "NOT_STORY_FORMAT"] : List String) := by
    simp [isRecoverableError, List.any_eq_true, List.elem_iff]
  refine ⟨hiff, fun hall => ?_⟩
  by_contra hne
  rw [Bool.not_eq_false] at hne
  obtain ⟨e, he, hcode⟩ := hiff.mp hne
  have h2 := hall e he
  simp only [List.mem_cons, List.not_mem_nil, or_false] at hcode
  rcases hcode with h | h | h | h <;> rw [h] at h2 <;> exact absurd h2 (by decide)

/-- C3 witness: a lone `CONTENT_SAFETY_FAILED` error is not recoverable. -/
theorem c3_witness :
    isRecoverableError [⟨"content", "x", "CONTENT_SAFETY_FAILED"⟩] = false :=
  (c3_isRecoverableError_iff [⟨"content", "x", "CONTENT_SAFETY_FAILED"⟩]).2
    (by intro e he; simp only [List.mem_singleton] at he; subst he; decide)

/-! ## C4: unparseable JSON short-circuits -/

/-- C4: when `JSON.parse` fails, `validateStoryResponse` returns invalid
with exactly the single `{field: response, code: INVALID_JSON}` error and
no data, for every expected length and configuration. -/
theorem c4_invalid_json (m : Matcher) (expectedLength : StoryLength)
    (config : ValidationConfig) :
    validateStoryResponse m none expectedLength config =
      { valid := false
        data := none
        errors := [⟨"response", "Geçersiz JSON formatı", "INVALID_JSON"⟩] } := rfl

/-! ## Schema-check helper lemmas -/

/-- A member of a field branch's issue list comes from that branch's
error list. -/
theorem mem_fieldIssues {α : Type} {r : Except (List ValidationError) α}
    {e : ValidationError} (he : e ∈ fieldIssues r) :
    ∃ es, r = .error es ∧ e ∈ es := by
  unfold fieldIssues at he
  split at he
  · simp_all
  · rename_i es
    exact ⟨es, rfl, he⟩

/-- A field branch with an empty issue list succeeded, provided the
branch never errors with an empty list. -/
theorem fieldIssues_eq_nil {α : Type} {r : Except (List ValidationError) α}
    (hne : ∀ es, r = .error es → es ≠ []) (h : fieldIssues r = []) :
    ∃ v, r = .ok v := by
  unfold fieldIssues at h
  split at h
  · rename_i v
    exact ⟨v, rfl⟩
  · rename_i es
    exact absurd h (hne es rfl)

/-- Every `title` check issue names the `title` field and the schema
code. -/
theorem titleIssues_facts (s : String) :
    ∀ e ∈ titleIssues s, e.field = "title" ∧ e.code = "SCHEMA_VALIDATION_ERROR" := by
  intro e he
  unfold titleIssues at he
  simp only [List.mem_append] at he
  rcases he with (h | h) | h <;> (split at h <;> simp_all)

/-- Every `content` check issue names the `content` field and the schema
code. -/
theorem contentIssues_facts (s : String) :
    ∀ e ∈ contentIssues s, e.field = "content" ∧ e.code = "SCHEMA_VALIDATION_ERROR" := by
  intro e he
  unfold contentIssues at he
  simp only [List.mem_append] at he
  rcases he with (h | h) | h <;> (split at h <;> simp_all)

/-- Every `wordCount` check issue names the `wordCount` field and the
schema code. -/
theorem wordCountIssues_facts (q : ℚ) :
    ∀ e ∈ wordCountIssues q, e.field = "wordCount" ∧ e.code = "SCHEMA_VALIDATION_ERROR" := by
  intro e he
  unfold wordCountIssues at he
  simp only [List.mem_append] at he
  rcases he with (h | h) | h <;> (split at h <;> simp_all)

/-- A `title` branch error list is non-empty, and every entry names the
`title` field with the schema code. -/
theorem parseTitle_error (v : Option Json) (es : List ValidationError)
    (h : parseTitle v = .error es) :
    es ≠ [] ∧ ∀ e ∈ es, e.field = "title" ∧ e.code = "SCHEMA_VALIDATION_ERROR" := by
  unfold parseTitle at h
  repeat' split at h
  all_goals first
    | (injection h with h2; subst h2;
       exact ⟨by simp, by
        intro e he
        simp only [List.mem_singleton] at he
        subst he
        exact ⟨rfl, rfl⟩⟩)
    | (rename_i s hne
       injection h with h2
       subst h2
       refine ⟨?_, titleIssues_facts s⟩
       intro hnil
       rw [hnil] at hne
       exact hne rfl)
    | simp_all

/-- A `content` branch error list is non-empty, and every entry names
the `content` field with the schema code. -/
theorem parseContent_error (v : Option Json) (es : List ValidationError)
    (h : parseContent v = .error es) :
    es ≠ [] ∧ ∀ e ∈ es, e.field = "content" ∧ e.code = "SCHEMA_VALIDATION_ERROR" := by
  unfold parseContent at h
  repeat' split at h
  all_goals first
    | (injection h with h2; subst h2;
       exact ⟨by simp, by
        intro e he
        simp only [List.mem_singleton] at he
        subst he
        exact ⟨rfl, rfl⟩⟩)
    | (rename_i s hne
       injection h with h2
       subst h2
       refine ⟨?_, contentIssues_facts s⟩
       intro hnil
       rw [hnil] at hne
       exact hne rfl)
    | simp_all

/-- A `wordCount` branch error list is non-empty, and every entry names
the `wordCount` field with the schema code. -/
theorem parseWordCount_error (v : Option Json) (es : List ValidationError)
    (h : parseWordCount v = .error es) :
    es ≠ [] ∧ ∀ e ∈ es, e.field = "wordCount" ∧ e.code = "SCHEMA_VALIDATION_ERROR" := by
  unfold parseWordCount at h
  repeat' split at h
  all_goals first
    | (injection h with h2; subst h2;
       exact ⟨by simp, by
        intro e he
        simp only [List.mem_singleton] at he
        subst he
        exact ⟨rfl, rfl⟩⟩)
    | (rename_i q hne
       injection h with h2
       subst h2
       refine ⟨?_, wordCountIssues_facts q⟩
       intro hnil
       rw [hnil] at hne
       exact hne rfl)
    | simp_all

/-- A `theme` branch error list is non-empty, and every entry names the
`theme` field with the schema code. -/
theorem parseTheme_error (v : Option Json) (es : List ValidationError)
    (h : parseTheme v = .error es) :
    es ≠ [] ∧ ∀ e ∈ es, e.field = "theme" ∧ e.code = "SCHEMA_VALIDATION_ERROR" := by
  unfold parseTheme at h
  repeat' split at h
  all_goals first
    | (injection h with h2; subst h2;
       exact ⟨by simp, by
        intro e he
        simp only [List.mem_singleton] at he
        subst he
        exact ⟨rfl, rfl⟩⟩)
    | simp_all

/-- A `language` branch error list is non-empty, and every entry names
the `language` field with the schema code. -/
theorem parseLanguage_error (v : Option Json) (es : List ValidationError)
    (h : parseLanguage v = .error es) :
    es ≠ [] ∧ ∀ e ∈ es, e.field = "language" ∧ e.code = "SCHEMA_VALIDATION_ERROR" := by
  unfold parseLanguage at h
  repeat' split at h
  all_goals first
    | (injection h with h2; subst h2;
       exact ⟨by simp, by
        intro e he
        simp only [List.mem_singleton] at he
        subst he
        exact ⟨rfl, rfl⟩⟩)
    | simp_all

/-- A schema failure on an object is exactly the concatenation of the
five field branches' issue lists, and at least one branch failed. -/
theorem schemaCheck_obj_error (fields : List (String × Json)) (errs : List ValidationError)
    (hj : schemaCheck (Json.obj fields) = .error errs) :
    errs =
      fieldIssues (parseTitle ((Json.obj fields).get "title")) ++
      fieldIssues (parseContent ((Json.obj fields).get "content")) ++
      fieldIssues (parseWordCount ((Json.obj fields).get "wordCount")) ++
      fieldIssues (parseTheme ((Json.obj fields).get "theme")) ++
      fieldIssues (parseLanguage ((Json.obj fields).get "language")) ∧
    errs ≠ [] := by
  unfold schemaCheck at hj
  split at hj
  · rename_i fields2 heq
    injection heq with heq2
    subst heq2
    split at hj
    · simp_all
    · rename_i hnot
      injection hj with hj2
      refine ⟨hj2.symm, ?_⟩
      intro hnil
      have hcat := hj2.trans hnil
      simp only [List.append_eq_nil] at hcat
      obtain ⟨⟨⟨⟨h1, h2⟩, h3⟩, h4⟩, h5⟩ := hcat
      obtain ⟨t, ht⟩ := fieldIssues_eq_nil (fun es hes => (parseTitle_error _ es hes).1) h1
      obtain ⟨c, hc⟩ := fieldIssues_eq_nil (fun es hes => (parseContent_error _ es hes).1) h2
      obtain ⟨w, hw⟩ := fieldIssues_eq_nil (fun es hes => (parseWordCount_error _ es hes).1) h3
      obtain ⟨th, hth⟩ := fieldIssues_eq_nil (fun es hes => (parseTheme_error _ es hes).1) h4
      obtain ⟨l, hl⟩ := fieldIssues_eq_nil (fun es hes => (parseLanguage_error _ es hes).1) h5
      exact hnot t c w th l ht hc hw hth hl
  · rename_i hcontra
    exact absurd rfl (hcontra fields)

/-! ## C5: schema violations short-circuit, one error per failed check -/

/-- C5 (amended): on any schema violation, `validateStoryResponse`
returns invalid immediately with exactly the schema errors (no later
check runs); the error list is non-empty, every code is
`SCHEMA_VALIDATION_ERROR`, every error names a schema field (or
`unknown` for a non-object payload), and on an object the errors are
exactly the per-field check issues in shape order — one error per failed
schema check, so a single violated field can contribute several (the
amendment). -/
theorem c5_schema_failure_amended (m : Matcher) (expectedLength : StoryLength)
    (config : ValidationConfig) (j : Json) (errs : List ValidationError)
    (hj : schemaCheck j = .error errs) :
    validateStoryResponse m (some j) expectedLength config =
      { valid := false, data := none, errors := errs } ∧
    errs ≠ [] ∧
    (∀ e ∈ errs, e.code = "SCHEMA_VALIDATION_ERROR") ∧
    (∀ e ∈ errs, e.field ∈ (["title", "content", "wordCount", "theme",
      "language", "unknown"] : List String)) ∧
    (∀ fields, j = Json.obj fields →
      errs =
        fieldIssues (parseTitle ((Json.obj fields).get "title")) ++
        fieldIssues (parseContent ((Json.obj fields).get "content")) ++
        fieldIssues (parseWordCount ((Json.obj fields).get "wordCount")) ++
        fieldIssues (parseTheme ((Json.obj fields).get "theme")) ++
        fieldIssues (parseLanguage ((Json.obj fields).get "language"))) := by
  have hret : validateStoryResponse m (some j) expectedLength config =
      { valid := false, data := none, errors := errs } := by
    simp only [validateStoryResponse]
    rw [hj]
  refine ⟨hret, ?_⟩
  cases j with
  | obj fields =>
    obtain ⟨heq, hne⟩ := schemaCheck_obj_error fields errs hj
    have hfc : ∀ e ∈ errs, (e.field = "title" ∨ e.field = "content" ∨
        e.field = "wordCount" ∨ e.field = "theme" ∨ e.field = "language") ∧
        e.code = "SCHEMA_VALIDATION_ERROR" := by
      intro e he
      rw [heq] at he
      simp only [List.mem_append] at he
      rcases he with ((((h | h) | h) | h) | h)
      · obtain ⟨es, hes, hmem⟩ := mem_fieldIssues h
        obtain ⟨hf, hc⟩ := (parseTitle_error _ es hes).2 e hmem
        exact ⟨Or.inl hf, hc⟩
      · obtain ⟨es, hes, hmem⟩ := mem_fieldIssues h
        obtain ⟨hf, hc⟩ := (parseContent_error _ es hes).2 e hmem
        exact ⟨Or.inr (Or.inl hf), hc⟩
      · obtain ⟨es, hes, hmem⟩ := mem_fieldIssues h
        obtain ⟨hf, hc⟩ := (parseWordCount_error _ es hes).2 e hmem
        exact ⟨Or.inr (Or.inr (Or.inl hf)), hc⟩
      · obtain ⟨es, hes, hmem⟩ := mem_fieldIssues h
        obtain ⟨hf, hc⟩ := (parseTheme_error _ es hes).2 e hmem
        exact ⟨Or.inr (Or.inr (Or.inr (Or.inl hf))), hc⟩
      · obtain ⟨es, hes, hmem⟩ := mem_fieldIssues h
        obtain ⟨hf, hc⟩ := (parseLanguage_error _ es hes).2 e hmem
        exact ⟨Or.inr (Or.inr (Or.inr (Or.inr hf))), hc⟩
    refine ⟨hne, fun e he => (hfc e he).2, fun e he => ?_, fun fields2 heq2 => ?_⟩
    · rcases (hfc e he).1 with h | h | h | h | h <;> simp [h]
    · injection heq2 with heq3
      subst heq3
      exact heq
  | str s =>
    unfold schemaCheck at hj
    injection hj with hj2
    subst hj2
    exact ⟨by simp, by
        intro e he
        simp only [List.mem_singleton] at he
        subst he
        rfl,
      by
        intro e he
        simp only [List.mem_singleton] at he
        subst he
        decide,
      by intro fields2 h2; exact absurd h2 (by simp)⟩
  | num q =>
    unfold schemaCheck at hj
    injection hj with hj2
    subst hj2
    exact ⟨by simp, by
        intro e he
        simp only [List.mem_singleton] at he
        subst he
        rfl,
      by
        intro e he
        simp only [List.mem_singleton] at he
        subst he
        decide,
      by intro fields2 h2; exact absurd h2 (by simp)⟩
  | bool b =>
    unfold schemaCheck at hj
    injection hj with hj2
    subst hj2
    exact ⟨by simp, by
        intro e he
        simp only [List.mem_singleton] at he
        subst he
        rfl,
      by
        intro e he
        simp only [List.mem_singleton] at he
        subst he
        decide,
      by intro fields2 h2; exact absurd h2 (by simp)⟩
  | null =>
    unfold schemaCheck at hj
    injection hj with hj2
    subst hj2
    exact ⟨by simp, by
        intro e he
        simp only [List.mem_singleton] at he
        subst he
        rfl,
      by
        intro e he
        simp only [List.mem_singleton] at he
        subst he
        decide,
      by intro fields2 h2; exact absurd h2 (by simp)⟩
  | arr xs =>
    unfold schemaCheck at hj
    injection hj with hj2
    subst hj2
    exact ⟨by simp, by
        intro e he
        simp only [List.mem_singleton] at he
        subst he
        rfl,
      by
        intro e he
        simp only [List.mem_singleton] at he
        subst he
        decide,
      by intro fields2 h2; exact absurd h2 (by simp)⟩

/-- A schema-valid content string (60 space-separated words, 119
characters). -/
def plainContent : String := joinSep " " (List.replicate 60 "ş")

/-- A schema-conformant response except for `wordCount: 30.5`, which
fails both the `min(50)` and the `int` check of the `wordCount` chain. -/
def halfWordCountJson : Json :=
  Json.obj [("title", Json.str "Masal Başlığı"), ("content", Json.str plainContent),
    ("wordCount", Json.num (Rat.mk' 61 2)), ("theme", Json.str "adventure"),
    ("language", Json.str "tr")]

/-- C5 counterexample: on `wordCount: 30.5` the single violated field
`wordCount` yields TWO `SCHEMA_VALIDATION_ERROR`s (min and int), so the
reported fields are not duplicate-free — refuting "one ValidationError
per violated field". -/
theorem c5_counterexample :
    validateStoryResponse (fun _ _ => 0) (some halfWordCountJson) StoryLength.short
        DEFAULT_VALIDATION_CONFIG =
      { valid := false
        data := none
        errors :=
          [⟨"wordCount", "Kelime sayısı çok az", "SCHEMA_VALIDATION_ERROR"⟩,
           ⟨"wordCount", "Kelime sayısı tam sayı olmalı", "SCHEMA_VALIDATION_ERROR"⟩] } ∧
    ¬((([⟨"wordCount", "Kelime sayısı çok az", "SCHEMA_VALIDATION_ERROR"⟩,
        ⟨"wordCount", "Kelime sayısı tam sayı olmalı", "SCHEMA_VALIDATION_ERROR"⟩] :
          List ValidationError).map (fun e => e.field)).Nodup) := by
  have h : schemaCheck halfWordCountJson =
      Except.error
        [⟨"wordCount", "Kelime sayısı çok az", "SCHEMA_VALIDATION_ERROR"⟩,
         ⟨"wordCount", "Kelime sayısı tam sayı olmalı", "SCHEMA_VALIDATION_ERROR"⟩] := by
    decide
  refine ⟨?_, by decide⟩
  simp only [validateStoryResponse]
  rw [h]

/-- C5 witness: an object whose `title` is too short and whose other
fields are missing fails the schema with the five expected errors. -/
theorem c5_witness :
    validateStoryResponse (fun _ _ => 0) (some (Json.obj [("title", Json.str "ab")]))
        StoryLength.short DEFAULT_VALIDATION_CONFIG =
      { valid := false
        data := none
        errors :=
          [⟨"title", "Başlık çok kısa", "SCHEMA_VALIDATION_ERROR"⟩,
           ⟨"content", "Required", "SCHEMA_VALIDATION_ERROR"⟩,
           ⟨"wordCount", "Required", "SCHEMA_VALIDATION_ERROR"⟩,
           ⟨"theme", "Geçersiz tema", "SCHEMA_VALIDATION_ERROR"⟩,
           ⟨"language", "Dil Türkçe (tr) veya İngilizce (en) olmalı",
            "SCHEMA_VALIDATION_ERROR"⟩] } ∧
    ([⟨"title", "Başlık çok kısa", "SCHEMA_VALIDATION_ERROR"⟩,
      ⟨"content", "Required", "SCHEMA_VALIDATION_ERROR"⟩,
      ⟨"wordCount", "Required", "SCHEMA_VALIDATION_ERROR"⟩,
      ⟨"theme", "Geçersiz tema", "SCHEMA_VALIDATION_ERROR"⟩,
      ⟨"language", "Dil Türkçe (tr) veya İngilizce (en) olmalı",
       "SCHEMA_VALIDATION_ERROR"⟩] :
        List ValidationError) ≠ [] :=
  have h : schemaCheck (Json.obj [("title", Json.str "ab")]) =
      Except.error
        [⟨"title", "Başlık çok kısa", "SCHEMA_VALIDATION_ERROR"⟩,
         ⟨"content", "Required", "SCHEMA_VALIDATION_ERROR"⟩,
         ⟨"wordCount", "Required", "SCHEMA_VALIDATION_ERROR"⟩,
         ⟨"theme", "Geçersiz tema", "SCHEMA_VALIDATION_ERROR"⟩,
         ⟨"language", "Dil Türkçe (tr) veya İngilizce (en) olmalı",
          "SCHEMA_VALIDATION_ERROR"⟩] := by decide
  ⟨(c5_schema_failure_amended (fun _ _ => 0) StoryLength.short DEFAULT_VALIDATION_CONFIG
      (Json.obj [("title", Json.str "ab")]) _ h).1,
   (c5_schema_failure_amended (fun _ _ => 0) StoryLength.short DEFAULT_VALIDATION_CONFIG
      (Json.obj [("title", Json.str "ab")]) _ h).2.1⟩

/-! ## C6: word-count recheck against the expected range -/

/-- The quality step only emits its three codes. -/
theorem validateContentQuality_code (content : String) (config : ValidationConfig) :
    ∀ e ∈ validateContentQuality content config,
      e.code = "INSUFFICIENT_STRUCTURE" ∨ e.code = "EXCESSIVE_REPETITION" ∨
        e.code = "NOT_STORY_FORMAT" := by
  intro e he
  unfold validateContentQuality at he
  simp only [List.mem_append] at he
  rcases he with (h | h) | h <;> (split at h <;> simp_all)

/-- The language step only emits its two codes. -/
theorem validateTurkishContent_code (content : String) :
    ∀ e ∈ validateTurkishContent content,
      e.code = "NO_TURKISH_CHARACTERS" ∨ e.code = "NOT_TURKISH_LANGUAGE" := by
  intro e he
  unfold validateTurkishContent at he
  simp only [List.mem_append] at he
  rcases he with h | h <;> (split at h <;> simp_all)

/-- The accumulated error list of steps 3-6, in emission order. -/
theorem postSchemaChecks_errors_eq (m : Matcher) (d : ValidatedStoryResponse)
    (expectedLength : StoryLength) (config : ValidationConfig) :
    (postSchemaChecks m d expectedLength config).errors =
      (if !(checkContentSafety m d.content DEFAULT_CONFIG).safe then
        [⟨"content", "İçerik güvenlik kontrolünden geçemedi: " ++
          joinSep ", " (checkContentSafety m d.content DEFAULT_CONFIG).categories,
          "CONTENT_SAFETY_FAILED"⟩]
      else []) ++
      (if countWords d.content < (getExpectedWordCountRange expectedLength).1 ∨
          countWords d.content > (getExpectedWordCountRange expectedLength).2 then
        [⟨"wordCount", "Kelime sayısı beklenen aralıkta değil. Beklenen: " ++
          toString (getExpectedWordCountRange expectedLength).1 ++ "-" ++
          toString (getExpectedWordCountRange expectedLength).2 ++ ", Gerçek: " ++
          toString (countWords d.content), "WORD_COUNT_MISMATCH"⟩]
      else []) ++
      validateContentQuality d.content config ++ validateTurkishContent d.content := rfl

/-- C6: after a schema pass, `validateStoryResponse` reports a
`WORD_COUNT_MISMATCH` on field `wordCount` exactly when the recomputed
word count of `content` falls outside the closed range keyed by the
expected length (short 80-220, medium 180-420, long 350-650); under
`short`, 219 recomputed words pass this check and 221 fail it. -/
theorem c6_word_count_range (m : Matcher) (expectedLength : StoryLength)
    (config : ValidationConfig) (j : Json) (d : ValidatedStoryResponse)
    (hj : schemaCheck j = .ok d) :
    ((∃ e ∈ (validateStoryResponse m (some j) expectedLength config).errors,
        e.field = "wordCount" ∧ e.code = "WORD_COUNT_MISMATCH") ↔
      (countWords d.content < (getExpectedWordCountRange expectedLength).1 ∨
       countWords d.content > (getExpectedWordCountRange expectedLength).2)) ∧
    getExpectedWordCountRange StoryLength.short = (80, 220) ∧
    getExpectedWordCountRange StoryLength.medium = (180, 420) ∧
    getExpectedWordCountRange StoryLength.long = (350, 650) ∧
    (expectedLength = StoryLength.short → countWords d.content = 219 →
      ¬∃ e ∈ (validateStoryResponse m (some j) expectedLength config).errors,
        e.field = "wordCount" ∧ e.code = "WORD_COUNT_MISMATCH") ∧
    (expectedLength = StoryLength.short → countWords d.content = 221 →
      ∃ e ∈ (validateStoryResponse m (some j) expectedLength config).errors,
        e.field = "wordCount" ∧ e.code = "WORD_COUNT_MISMATCH") := by
  have hval : validateStoryResponse m (some j) expectedLength config =
      postSchemaChecks m d expectedLength config := by
    simp only [validateStoryResponse]
    rw [hj]
  have hiff : (∃ e ∈ (validateStoryResponse m (some j) expectedLength config).errors,
      e.field = "wordCount" ∧ e.code = "WORD_COUNT_MISMATCH") ↔
      (countWords d.content < (getExpectedWordCountRange expectedLength).1 ∨
       countWords d.content > (getExpectedWordCountRange expectedLength).2) := by
    constructor
    · rintro ⟨e, he, hf, hc⟩
      by_contra hout
      rw [hval, postSchemaChecks_errors_eq, if_neg hout] at he
      simp only [List.append_nil, List.mem_append] at he
      rcases he with (h | h) | h
      · split at h
        · simp only [List.mem_singleton] at h
          subst h
          have hlit : ("CONTENT_SAFETY_FAILED" : String) = "WORD_COUNT_MISMATCH" := hc
          exact absurd hlit (by decide)
        · exact absurd h (List.not_mem_nil e)
      · rcases validateContentQuality_code _ _ _ h with h2 | h2 | h2 <;>
          (rw [hc] at h2; exact absurd h2 (by decide))
      · rcases validateTurkishContent_code _ _ h with h2 | h2 <;>
          (rw [hc] at h2; exact absurd h2 (by decide))
    · intro hrange
      refine ⟨⟨"wordCount", "Kelime sayısı beklenen aralıkta değil. Beklenen: " ++
          toString (getExpectedWordCountRange expectedLength).1 ++ "-" ++
          toString (getExpectedWordCountRange expectedLength).2 ++ ", Gerçek: " ++
          toString (countWords d.content), "WORD_COUNT_MISMATCH"⟩, ?_, rfl, rfl⟩
      rw [hval, postSchemaChecks_errors_eq, if_pos hrange]
      simp
  refine ⟨hiff, rfl, rfl, rfl, ?_, ?_⟩
  · intro h1 h2
    subst h1
    intro hex
    have hr := hiff.mp hex
    rw [h2] at hr
    exact absurd hr (by decide)
  · intro h1 h2
    subst h1
    refine hiff.mpr ?_
    rw [h2]
    decide

/-- A 219-word content (`ş` repeated, space-separated). -/
def storyContentA : String := joinSep " " (List.replicate 219 "ş")

/-- A 221-word content. -/
def storyContentB : String := joinSep " " (List.replicate 221 "ş")

/-- A schema-conformant response object carrying `storyContentA`. -/
def storyJsonA : Json :=
  Json.obj [("title", Json.str "Masal Başlığı"), ("content", Json.str storyContentA),
    ("wordCount", Json.num 150), ("theme", Json.str "adventure"),
    ("language", Json.str "tr")]

/-- A schema-conformant response object carrying `storyContentB`. -/
def storyJsonB : Json :=
  Json.obj [("title", Json.str "Masal Başlığı"), ("content", Json.str storyContentB),
    ("wordCount", Json.num 150), ("theme", Json.str "adventure"),
    ("language", Json.str "tr")]

/-- C6 witness: 219 words under `short` raise no `WORD_COUNT_MISMATCH`;
221 words do. -/
theorem c6_witness :
    (¬∃ e ∈ (validateStoryResponse (fun _ _ => 0) (some storyJsonA) StoryLength.short
        DEFAULT_VALIDATION_CONFIG).errors,
      e.field = "wordCount" ∧ e.code = "WORD_COUNT_MISMATCH") ∧
    (∃ e ∈ (validateStoryResponse (fun _ _ => 0) (some storyJsonB) StoryLength.short
        DEFAULT_VALIDATION_CONFIG).errors,
      e.field = "wordCount" ∧ e.code = "WORD_COUNT_MISMATCH") :=
  have hA : schemaCheck storyJsonA =
      .ok ⟨"Masal Başlığı", storyContentA, 150, .adventure, "tr"⟩ := by decide
  have hB : schemaCheck storyJsonB =
      .ok ⟨"Masal Başlığı", storyContentB, 150, .adventure, "tr"⟩ := by decide
  ⟨(c6_word_count_range (fun _ _ => 0) StoryLength.short DEFAULT_VALIDATION_CONFIG
      storyJsonA _ hA).2.2.2.2.1 rfl (by decide),
   (c6_word_count_range (fun _ _ => 0) StoryLength.short DEFAULT_VALIDATION_CONFIG
      storyJsonB _ hB).2.2.2.2.2 rfl (by decide)⟩

/-! ## C7: aggregation arithmetic of the default verdict -/

/-- C7: under the default configuration the verdict's `safe` flag is the
conjunction of the four sub-check flags, its `confidence` is the
arithmetic mean of the four sub-check confidences, and the blocked-term
sub-check's confidence is `1` when nothing is found and
`max 0.1 (1 - 0.3 × foundCount)` otherwise. -/
theorem c7_default_aggregation (m : Matcher) (content : String) :
    (checkContentSafety m content DEFAULT_CONFIG).safe =
      ((checkBlockedTerms content DEFAULT_BLOCKED_TERMS).safe &&
       (checkRegexPatterns m content DEFAULT_GUARD_RULES).safe &&
       (checkContentLength content).safe &&
       (checkRepetition content).safe) ∧
    (checkContentSafety m content DEFAULT_CONFIG).confidence =
      ((checkBlockedTerms content DEFAULT_BLOCKED_TERMS).confidence +
       (checkRegexPatterns m content DEFAULT_GUARD_RULES).confidence +
       (checkContentLength content).confidence +
       (checkRepetition content).confidence) / 4 ∧
    (checkBlockedTerms content DEFAULT_BLOCKED_TERMS).confidence =
      (if (extractBlockedTerms content DEFAULT_BLOCKED_TERMS).length = 0 then 1
       else max (1/10)
         (1 - ((extractBlockedTerms content DEFAULT_BLOCKED_TERMS).length : ℚ) * (3/10))) := by
  refine ⟨checkContentSafety_default_safe m content, ?_, rfl⟩
  have h : (checkContentSafety m content DEFAULT_CONFIG).confidence =
      ((checkBlockedTerms content DEFAULT_BLOCKED_TERMS).confidence +
       ((checkRegexPatterns m content DEFAULT_GUARD_RULES).confidence +
        ((checkContentLength content).confidence +
         ((checkRepetition content).confidence + 0)))) / ((4 : ℕ) : ℚ) := rfl
  rw [h]
  push_cast
  ring

/-! ## C8: the scenario prompt's contents -/

/-- The scenario request of the spec's prompt-builder property. -/
def scenarioRequest : StoryRequest :=
  ⟨"Ahmet", 7, .adventure, .short, some ["köpek", "orman"]⟩

/-- C8: the default-template prompt for the scenario request contains the
child's name, the age, the adventure theme description, the elements
joined by comma-space, and the literal `JSON`. -/
theorem c8_prompt_contents :
    jsIncludes (buildStoryPrompt scenarioRequest) "Ahmet" = true ∧
    jsIncludes (buildStoryPrompt scenarioRequest) "7" = true ∧
    jsIncludes (buildStoryPrompt scenarioRequest)
      "Keşif ve macera dolu bir hikaye anlat. Cesaret ve azmi vurgula." = true ∧
    jsIncludes (buildStoryPrompt scenarioRequest) "köpek, orman" = true ∧
    jsIncludes (buildStoryPrompt scenarioRequest) "JSON" = true := by
  refine ⟨by decide, by decide, by decide, by decide, by decide⟩

/-! ## C9: request pre-validation -/

/-- The `childName` branch of `validateUserRequest` fires exactly when
`childName` is not a string that is non-empty after trimming. -/
theorem childName_bad_iff (v : JsVal) :
    ((!jsTruthy v ||
      (match v with
        | JsVal.str s => decide ((jsTrim s).length = 0)
        | _ => true)) = true) ↔
    ¬∃ s, v = JsVal.str s ∧ (jsTrim s).length ≠ 0 := by
  cases v with
  | str s =>
    by_cases hs : s = ""
    · subst hs
      simp [jsTruthy]
      decide
    · simp [jsTruthy, hs]
  | num q => simp [jsTruthy]
  | bool b => simp [jsTruthy]
  | null => simp [jsTruthy]
  | undef => simp [jsTruthy]

/-- The `age` branch of `validateUserRequest` fires exactly when `age` is
not a number lying in `[3, 18]` (integrality is not checked). -/
theorem age_bad_iff (v : JsVal) :
    ((!jsTruthy v ||
      (match v with
        | JsVal.num q => decide (q < 3 ∨ q > 18)
        | _ => true)) = true) ↔
    ¬∃ q, v = JsVal.num q ∧ 3 ≤ q ∧ q ≤ 18 := by
  cases v with
  | num q =>
    by_cases hq : q = 0
    · subst hq
      simp [jsTruthy]
    · simp [jsTruthy, hq]
      constructor
      · rintro (h | h) h3
        · exact absurd h3 (not_le.mpr h)
        · exact h
      · intro h
        rcases lt_or_ge q 3 with h3 | h3
        · exact Or.inl h3
        · exact Or.inr (h h3)
  | str s => simp [jsTruthy]
  | bool b => simp [jsTruthy]
  | null => simp [jsTruthy]
  | undef => simp [jsTruthy]

/-- An enum-membership branch fires exactly when the value is not one of
the enum's string values. -/
theorem enumVal_bad_iff (vals : List String) (v : JsVal) :
    ((!valIncluded vals v) = true) ↔ ¬∃ s, v = JsVal.str s ∧ s ∈ vals := by
  cases v <;> simp [valIncluded]

/-- C9 (amended): `validateUserRequest` returns `valid = true` exactly
when childName is a string that is non-empty after trim, age is a number
in the configured bound `[3, 18]` (integrality is NOT required -- this is
the amendment), theme is one of the 8 theme values and length one of the
3 length values; each violated condition contributes exactly one error
with its corresponding code. -/
theorem c9_request_validation_amended (r : AnyRequest) :
    ((validateUserRequest r).valid = true ↔
      ((∃ s, r.childName = JsVal.str s ∧ (jsTrim s).length ≠ 0) ∧
       (∃ q, r.age = JsVal.num q ∧ 3 ≤ q ∧ q ≤ 18) ∧
       (∃ t, r.theme = JsVal.str t ∧ t ∈ storyThemeValues) ∧
       (∃ l, r.length = JsVal.str l ∧ l ∈ storyLengthValues))) ∧
    (("MISSING_CHILD_NAME" ∈ (validateUserRequest r).errors.map (fun e => e.code)) ↔
      ¬∃ s, r.childName = JsVal.str s ∧ (jsTrim s).length ≠ 0) ∧
    (("INVALID_AGE" ∈ (validateUserRequest r).errors.map (fun e => e.code)) ↔
      ¬∃ q, r.age = JsVal.num q ∧ 3 ≤ q ∧ q ≤ 18) ∧
    (("INVALID_THEME" ∈ (validateUserRequest r).errors.map (fun e => e.code)) ↔
      ¬∃ t, r.theme = JsVal.str t ∧ t ∈ storyThemeValues) ∧
    (("INVALID_LENGTH" ∈ (validateUserRequest r).errors.map (fun e => e.code)) ↔
      ¬∃ l, r.length = JsVal.str l ∧ l ∈ storyLengthValues) ∧
    ((validateUserRequest r).errors.map (fun e => e.code)).Nodup := by
  have hA := childName_bad_iff r.childName
  have hB := age_bad_iff r.age
  have hC := enumVal_bad_iff storyThemeValues r.theme
  have hD := enumVal_bad_iff storyLengthValues r.length
  have hu : validateUserRequest r =
      { valid :=
          ((if (!jsTruthy r.childName ||
              (match r.childName with
                | JsVal.str s => decide ((jsTrim s).length = 0)
                | _ => true)) = true then
            [ValidationError.mk "childName" "Çocuk adı gerekli" "MISSING_CHILD_NAME"] else []) ++
          (if (!jsTruthy r.age ||
              (match r.age with
                | JsVal.num q => decide (q < 3 ∨ q > 18)
                | _ => true)) = true then
            [ValidationError.mk "age" "Yaş 3-18 arasında olmalı" "INVALID_AGE"] else []) ++
          (if (!valIncluded storyThemeValues r.theme) = true then
            [ValidationError.mk "theme" "Geçersiz hikaye teması" "INVALID_THEME"] else []) ++
          (if (!valIncluded storyLengthValues r.length) = true then
            [ValidationError.mk "length" "Geçersiz hikaye uzunluğu" "INVALID_LENGTH"] else [])).isEmpty
        errors :=
          (if (!jsTruthy r.childName ||
              (match r.childName with
                | JsVal.str s => decide ((jsTrim s).length = 0)
                | _ => true)) = true then
            [ValidationError.mk "childName" "Çocuk adı gerekli" "MISSING_CHILD_NAME"] else []) ++
          (if (!jsTruthy r.age ||
              (match r.age with
                | JsVal.num q => decide (q < 3 ∨ q > 18)
                | _ => true)) = true then
            [ValidationError.mk "age" "Yaş 3-18 arasında olmalı" "INVALID_AGE"] else []) ++
          (if (!valIncluded storyThemeValues r.theme) = true then
            [ValidationError.mk "theme" "Geçersiz hikaye teması" "INVALID_THEME"] else []) ++
          (if (!valIncluded storyLengthValues r.length) = true then
            [ValidationError.mk "length" "Geçersiz hikaye uzunluğu" "INVALID_LENGTH"] else []) } := rfl
  rw [hu]
  cases hb1 : (!jsTruthy r.childName ||
      (match r.childName with
        | JsVal.str s => decide ((jsTrim s).length = 0)
        | _ => true)) <;>
    cases hb2 : (!jsTruthy r.age ||
      (match r.age with
        | JsVal.num q => decide (q < 3 ∨ q > 18)
        | _ => true)) <;>
    cases hb3 : (!valIncluded storyThemeValues r.theme) <;>
    cases hb4 : (!valIncluded storyLengthValues r.length) <;>
    simp_all

/-- A request whose age is the non-integer number 7.5 (= 15/2). -/
def nonIntegerAgeRequest : AnyRequest :=
  ⟨JsVal.str "Ali", JsVal.num (Rat.mk' 15 2), JsVal.str "adventure", JsVal.str "short"⟩

/-- C9 counterexample: the code accepts a request whose age is the
non-integer 7.5, refuting the claim that validity requires age to be an
integer. -/
theorem c9_counterexample :
    (validateUserRequest nonIntegerAgeRequest).valid = true ∧
    nonIntegerAgeRequest.age = JsVal.num (Rat.mk' 15 2) ∧
    (∀ n : ℤ, (Rat.mk' 15 2 : ℚ) ≠ (n : ℚ)) := by
  refine ⟨by decide, rfl, ?_⟩
  intro n h
  have hden : (Rat.mk' 15 2 : ℚ).den = 1 := by rw [h]; exact Rat.den_intCast n
  exact absurd hden (by decide)

/-- C9 witness: a fully valid request is accepted, via the amended
characterization. -/
theorem c9_witness :
    (validateUserRequest
      ⟨JsVal.str "Ali", JsVal.num 7, JsVal.str "adventure", JsVal.str "short"⟩).valid
      = true :=
  (c9_request_validation_amended
    ⟨JsVal.str "Ali", JsVal.num 7, JsVal.str "adventure", JsVal.str "short"⟩).1.mpr
    ⟨⟨"Ali", rfl, by decide⟩, ⟨7, rfl, by norm_num⟩,
     ⟨"adventure", rfl, by decide⟩, ⟨"short", rfl, by decide⟩⟩

/-! ## C10: the user-input pre-check -/

/-- A rule the matcher finds nothing for leaves the scan state
unchanged. -/
theorem regexScanStep_zero (m : Matcher) (content : String) (acc : List String × Nat)
    (rule : GuardRule) (h : m content rule = 0) :
    regexScanStep m content acc rule = acc := by
  simp [regexScanStep, h]

/-- When the matcher finds nothing for any rule, the whole scan stays at
its initial state. -/
theorem regexFold_zero (m : Matcher) (content : String) :
    ∀ (patterns : List GuardRule), (∀ r ∈ patterns, m content r = 0) →
      ∀ init : List String × Nat,
        patterns.foldl (regexScanStep m content) init = init := by
  intro patterns
  induction patterns with
  | nil => intro _ _; rfl
  | cons r rs ih =>
    intro h init
    rw [List.foldl_cons, regexScanStep_zero m content init r (h r (List.mem_cons_self r rs))]
    exact ih (fun r' hr' => h r' (List.mem_cons_of_mem _ hr')) init

/-- The regex sub-check passes when no rule matches. -/
theorem checkRegexPatterns_zero_safe (m : Matcher) (content : String)
    (patterns : List GuardRule) (h : ∀ r ∈ patterns, m content r = 0) :
    (checkRegexPatterns m content patterns).safe = true := by
  have hs : (checkRegexPatterns m content patterns).safe =
      decide ((patterns.foldl (regexScanStep m content) ([], 0)).2 = 0) := rfl
  rw [hs, regexFold_zero m content patterns h ([], 0)]
  decide

/-- `preCheckUserInput` aggregates only the blocked-term and (filtered)
regex sub-checks. -/
theorem preCheckUserInput_safe_eq (m : Matcher) (input : String) :
    (preCheckUserInput m input).safe =
      ((checkBlockedTerms input DEFAULT_BLOCKED_TERMS).safe &&
       ((checkRegexPatterns m input
          (DEFAULT_GUARD_RULES.filter (fun rule => rule.severity = .block))).safe &&
        true)) := rfl

/-- C10: an input containing no blocked term for which no block-severity
rule matches passes `preCheckUserInput` — the length/structure and
repetition sub-checks are not applied to user input — while the empty
string fails the full default `checkContentSafety` (its length check
rejects it). -/
theorem c10_precheck_vs_full (m : Matcher) (input : String) :
    ((∀ term ∈ DEFAULT_BLOCKED_TERMS,
        jsIncludes (jsToLower input) (jsToLower term) = false) →
     (∀ rule ∈ DEFAULT_GUARD_RULES, rule.severity = .block → m input rule = 0) →
     (preCheckUserInput m input).safe = true) ∧
    (checkContentSafety m "" DEFAULT_CONFIG).safe = false := by
  constructor
  · intro h1 h2
    have hbt : (checkBlockedTerms input DEFAULT_BLOCKED_TERMS).safe = true := by
      rw [checkBlockedTerms_safe_eq]
      have hnil : DEFAULT_BLOCKED_TERMS.filter
          (fun t => jsIncludes (jsToLower input) (jsToLower t)) = [] :=
        List.filter_eq_nil_iff.mpr (fun a ha => by simp [h1 a ha])
      rw [hnil]
      decide
    have hrx : (checkRegexPatterns m input
        (DEFAULT_GUARD_RULES.filter (fun rule => rule.severity = .block))).safe = true := by
      refine checkRegexPatterns_zero_safe m input _ (fun r hr => ?_)
      have hm := List.mem_filter.mp hr
      exact h2 r hm.1 (by simpa using hm.2)
    rw [preCheckUserInput_safe_eq, hbt, hrx]
    rfl
  · rw [checkContentSafety_default_safe]
    have hlen : (checkContentLength "").safe = false := by decide
    rw [hlen]
    simp

/-- C10 witness: the empty string (no blocked terms, no regex matches for
the all-zero matcher) passes the pre-check, yet fails the full default
check. -/
theorem c10_witness :
    (preCheckUserInput (fun _ _ => 0) "").safe = true ∧
    (checkContentSafety (fun _ _ => 0) "" DEFAULT_CONFIG).safe = false :=
  ⟨(c10_precheck_vs_full (fun _ _ => 0) "").1 (by decide) (by decide),
   (c10_precheck_vs_full (fun _ _ => 0) "").2⟩

/-! ## C2: the retry orchestrator -/

/-- A schema failure always carries at least one error. -/
theorem schemaCheck_error_ne_nil (j : Json) (errs : List ValidationError)
    (hj : schemaCheck j = .error errs) : errs ≠ [] := by
  cases j with
  | obj fields => exact (schemaCheck_obj_error fields errs hj).2
  | str s => unfold schemaCheck at hj; injection hj with h; subst h; simp
  | num q => unfold schemaCheck at hj; injection hj with h; subst h; simp
  | bool b => unfold schemaCheck at hj; injection hj with h; subst h; simp
  | null => unfold schemaCheck at hj; injection hj with h; subst h; simp
  | arr xs => unfold schemaCheck at hj; injection hj with h; subst h; simp

/-- A valid validation result carries data. -/
theorem validateStoryResponse_valid_data (m : Matcher) (parsed : Option Json)
    (len : StoryLength) (cfg : ValidationConfig)
    (h : (validateStoryResponse m parsed len cfg).valid = true) :
    ∃ d, (validateStoryResponse m parsed len cfg).data = some d := by
  cases parsed with
  | none => simp [validateStoryResponse] at h
  | some j =>
    cases hs : schemaCheck j with
    | error errs =>
      have hv : validateStoryResponse m (some j) len cfg =
          { valid := false, data := none, errors := errs } := by
        simp only [validateStoryResponse]; rw [hs]
      rw [hv] at h
      simp at h
    | ok d =>
      have hv : validateStoryResponse m (some j) len cfg = postSchemaChecks m d len cfg := by
        simp only [validateStoryResponse]; rw [hs]
      rw [hv] at h ⊢
      have hval : (postSchemaChecks m d len cfg).valid =
          (postSchemaChecks m d len cfg).errors.isEmpty := rfl
      have hd : (postSchemaChecks m d len cfg).data =
          if (postSchemaChecks m d len cfg).errors.isEmpty then some d else none := rfl
      rw [hval] at h
      rw [hd, h]
      exact ⟨d, rfl⟩

/-- With one loop iteration left, exactly one generation call happens. -/
theorem retryGo_one_trace (m : Matcher) (gen : Generator) (request : StoryRequest)
    (attempt : Nat) (lastError : String) :
    (retryGo m gen request 1 attempt lastError).2 =
      [(attempt, if attempt = 0 then buildStoryPrompt request
                 else buildRetryPrompt request lastError)] := by
  simp only [retryGo]
  repeat' split
  all_goals simp [retryGo]

end Masal
namespace Masal
/-- C2: the orchestrator makes at most two generation calls; the first is
always `(0, buildStoryPrompt request)`; a second call happens only when
attempt 0 threw or validated invalid-but-recoverable, and then uses
`buildRetryPrompt` seeded with attempt 0's error text; a non-recoverable
validation failure on attempt 0 returns failure with no second call. -/
theorem c2_retry_orchestration (m : Matcher) (gen : Generator) (request : StoryRequest) :
    (generateStoryWithRetryT m gen request).2.length ≤ 2 ∧
    (generateStoryWithRetryT m gen request).2.head? =
      some (0, buildStoryPrompt request) ∧
    (∀ p, (1, p) ∈ (generateStoryWithRetryT m gen request).2 →
      ((∃ msg, gen 0 (buildStoryPrompt request) = .error msg ∧
          p = buildRetryPrompt request msg) ∨
       (∃ resp, gen 0 (buildStoryPrompt request) = .ok resp ∧
          (validateStoryResponse m resp.content request.length
            DEFAULT_VALIDATION_CONFIG).valid = false ∧
          isRecoverableError (validateStoryResponse m resp.content request.length
            DEFAULT_VALIDATION_CONFIG).errors = true ∧
          p = buildRetryPrompt request (joinSep ", "
            ((validateStoryResponse m resp.content request.length
              DEFAULT_VALIDATION_CONFIG).errors.map (fun e => e.message)))))) ∧
    (∀ resp, gen 0 (buildStoryPrompt request) = .ok resp →
      (validateStoryResponse m resp.content request.length
        DEFAULT_VALIDATION_CONFIG).valid = false →
      isRecoverableError (validateStoryResponse m resp.content request.length
        DEFAULT_VALIDATION_CONFIG).errors = false →
      (generateStoryWithRetryT m gen request).1.success = false ∧
      (generateStoryWithRetryT m gen request).2 = [(0, buildStoryPrompt request)]) := by
  cases hg : gen 0 (buildStoryPrompt request) with
  | error msg =>
    have htr : (generateStoryWithRetryT m gen request).2 =
        (0, buildStoryPrompt request) :: (retryGo m gen request 1 1 msg).2 := by
      simp only [generateStoryWithRetryT, retryGo]
      simp [hg]
    rw [htr, retryGo_one_trace]
    simp only [if_neg (by decide : ¬(1 = 0))]
    refine ⟨by simp, by simp, ?_, ?_⟩
    · intro p hp
      simp only [List.mem_cons, List.mem_singleton] at hp
      rcases hp with h | h | h
      · exact absurd h (by simp)
      · exact Or.inl ⟨msg, rfl, (congrArg Prod.snd h)⟩
      · exact absurd h (List.not_mem_nil _)
    · intro resp hresp
      exact absurd hresp (by simp)
  | ok resp =>
    cases hval : (validateStoryResponse m resp.content request.length
        DEFAULT_VALIDATION_CONFIG).valid with
    | true =>
      obtain ⟨d, hd⟩ := validateStoryResponse_valid_data m resp.content request.length
        DEFAULT_VALIDATION_CONFIG hval
      have htr : generateStoryWithRetryT m gen request =
          (mkSuccess request d resp, [(0, buildStoryPrompt request)]) := by
        simp only [generateStoryWithRetryT, retryGo]
        simp [hg, hval, hd]
      rw [htr]
      refine ⟨by simp, by simp, ?_, ?_⟩
      · intro p hp
        simp only [List.mem_singleton] at hp
        exact absurd hp (by simp)
      · intro resp2 hresp2 hval2 hrec2
        injection hresp2 with h
        subst h
        exact absurd (hval.symm.trans hval2) (by decide)
    | false =>
      cases hrec : isRecoverableError (validateStoryResponse m resp.content request.length
          DEFAULT_VALIDATION_CONFIG).errors with
      | true =>
        have htr : (generateStoryWithRetryT m gen request).2 =
            (0, buildStoryPrompt request) ::
              (retryGo m gen request 1 1 (joinSep ", "
                ((validateStoryResponse m resp.content request.length
                  DEFAULT_VALIDATION_CONFIG).errors.map (fun e => e.message)))).2 := by
          simp only [generateStoryWithRetryT, retryGo]
          simp [hg, hval, hrec]
        refine ⟨?_, ?_, ?_, ?_⟩
        · rw [htr, retryGo_one_trace]
          simp
        · rw [htr]
          simp
        · intro p hp
          rw [htr, retryGo_one_trace] at hp
          simp only [if_neg (by decide : ¬(1 = 0)), List.mem_cons, List.mem_singleton] at hp
          rcases hp with h | h | h
          · exact absurd h (by simp)
          · exact Or.inr ⟨resp, rfl, hval, hrec, (congrArg Prod.snd h)⟩
          · exact absurd h (List.not_mem_nil _)
        · intro resp2 hresp2 hval2 hrec2
          injection hresp2 with h
          subst h
          exact absurd (hrec.symm.trans hrec2) (by decide)
      | false =>
        have htr : generateStoryWithRetryT m gen request =
            (mkFailure (joinSep ", "
              ((validateStoryResponse m resp.content request.length
                DEFAULT_VALIDATION_CONFIG).errors.map (fun e => e.message))),
             [(0, buildStoryPrompt request)]) := by
          simp only [generateStoryWithRetryT, retryGo]
          simp [hg, hval, hrec]
        rw [htr]
        refine ⟨by simp, by simp, ?_, ?_⟩
        · intro p hp
          simp only [List.mem_singleton] at hp
          exact absurd hp (by simp)
        · intro resp2 hresp2 hval2 hrec2
          exact ⟨rfl, rfl⟩

/-- C2 witness: with a generator that always throws, both attempts run;
the second prompt is the retry prompt seeded with the thrown message. -/
theorem c2_witness :
    (generateStoryWithRetryT (fun _ _ => 0)
        (fun _ _ => Except.error "model failure") scenarioRequest).2.length ≤ 2 ∧
    ((∃ msg, (Except.error "model failure" : Except String GenResponse) =
          Except.error msg ∧
        buildRetryPrompt scenarioRequest "model failure" =
          buildRetryPrompt scenarioRequest msg) ∨
     (∃ resp, (Except.error "model failure" : Except String GenResponse) =
          Except.ok resp ∧
        (validateStoryResponse (fun _ _ => 0) resp.content StoryLength.short
          DEFAULT_VALIDATION_CONFIG).valid = false ∧
        isRecoverableError (validateStoryResponse (fun _ _ => 0) resp.content
          StoryLength.short DEFAULT_VALIDATION_CONFIG).errors = true ∧
        buildRetryPrompt scenarioRequest "model failure" =
          buildRetryPrompt scenarioRequest (joinSep ", "
            ((validateStoryResponse (fun _ _ => 0) resp.content StoryLength.short
              DEFAULT_VALIDATION_CONFIG).errors.map (fun e => e.message))))) := by
  have h := c2_retry_orchestration (fun _ _ => 0)
    (fun _ _ => Except.error "model failure") scenarioRequest
  have hmem : (1, buildRetryPrompt scenarioRequest "model failure") ∈
      (generateStoryWithRetryT (fun _ _ => 0)
        (fun _ _ => Except.error "model failure") scenarioRequest).2 := by
    show (1, buildRetryPrompt scenarioRequest "model failure") ∈
      [(0, buildStoryPrompt scenarioRequest),
       (1, buildRetryPrompt scenarioRequest "model failure")]
    simp
  exact ⟨h.1, h.2.2.1 _ hmem⟩

end Masal
